import Mathlib

/-!
Shallow embedding of `src/main/c/h3-java/src/jniapi.c`, the JNI binding layer
of uber/h3-java, and proofs about its marshalling and error-translation logic.

Modelling conventions:
* Native H3 library calls are not part of this file set; each one is modelled
  as an oracle parameter.  A fallible native call is an `Except Nat α`:
  `.error e` stands for the call returning the nonzero `H3Error` code `e`
  (writing no output), `.ok v` stands for `E_SUCCESS` with output `v`.
  For native calls that write in place into a pinned buffer and whose written
  contents no theorem depends on, the payload type is `Unit`.
* JNI pinning (`Get*ArrayElements`) may return `NULL`; each pin attempt is a
  `Bool` parameter (`true` = pin succeeded, i.e. non-`NULL`).
* Exception-object allocation (`NewObject` inside `ThrowH3Exception` and
  `ThrowOutOfMemoryError`) may fail; this is the `allocOk : Bool` parameter.
* Java arrays are `List` values; `GetArrayLength` is `List.length`.
  The buffer of `cellToBoundary`/`directedEdgeToBoundary` is modelled as raw
  memory `Nat → D` together with the list of performed writes, because those
  copy loops can write out of the array's bounds.
* `jdouble` values are never computed with, only copied, so they are a type
  parameter `D`.
-/

namespace H3Java

/-- Exceptions the binding can raise into the JVM: `H3Exception(code)` built by
`ThrowH3Exception`, or `OutOfMemoryError` built by `ThrowOutOfMemoryError`. -/
inductive JavaThrowable where
  | h3Exception (code : Nat)
  | outOfMemoryError
deriving DecidableEq, Repr

/-- Mode argument of `Release*ArrayElements`: `0` copies the buffer back and
frees it (`commit`), `JNI_ABORT` frees it without copying back. -/
inductive ReleaseMode where
  | commit
  | abort
deriving DecidableEq, Repr

/-- Identifies which caller-supplied Java array a release event refers to. -/
inductive ArrayId where
  | vertsArr
  | holeSizesArr
  | holeVertsArr
  | resultsArr
deriving DecidableEq, Repr

/-- Models `ThrowH3Exception(env, err)`: constructs an `H3Exception` carrying
exactly `err` and throws it; if `NewObject` fails (`allocOk = false`) nothing
is thrown by this helper. -/
def ThrowH3Exception (allocOk : Bool) (err : Nat) : Option JavaThrowable :=
  if allocOk then some (JavaThrowable.h3Exception err) else none

/-- Models `ThrowOutOfMemoryError(env)`: constructs and throws an
`OutOfMemoryError` when the exception object can be allocated. -/
def ThrowOutOfMemoryError (allocOk : Bool) : Option JavaThrowable :=
  if allocOk then some JavaThrowable.outOfMemoryError else none

/-- Models the `if (err) { ThrowH3Exception(env, err); }` idiom applied to the
result of a native call. -/
def throwIfError (allocOk : Bool) : Except Nat α → Option JavaThrowable
  | .error e => ThrowH3Exception allocOk e
  | .ok _ => none

/-- Models the C struct `LatLng` (latitude/longitude pair of doubles). -/
structure LatLng (D : Type) where
  lat : D
  lng : D
deriving DecidableEq, Repr

/-- Models the C struct `CoordIJ` (two `int` coordinates). -/
structure CoordIJ where
  i : Int
  j : Int
deriving DecidableEq, Repr

/-- Models the C struct `CellBoundary` of `h3api.h`: an `int numVerts` and a
fixed array `verts[MAX_CELL_BNDRY_VERTS]` with `MAX_CELL_BNDRY_VERTS = 10`
(the spec's "ordered sequence of up to 10 vertex coordinates").  The fixed
array is modelled as a total function on slot numbers; `numVerts_le` is the
capacity invariant of the fixed-size C array. -/
structure CellBoundary (D : Type) where
  numVerts : Nat
  verts : Nat → LatLng D
  numVerts_le : numVerts ≤ 10

/-- Result of a binding entry point that only returns a scalar: what it threw
and what it returned. -/
structure JniCall (α : Type) where
  thrown : Option JavaThrowable
  ret : α
deriving DecidableEq, Repr

/-- Result of a binding entry point that writes into one caller output array:
what it threw, the array's final contents, and whether the array was ever
pinned by the call. -/
structure OutArrayCall (α : Type) where
  thrown : Option JavaThrowable
  arr : α
  pinned : Bool
deriving DecidableEq, Repr

/-- Models `Java_com_uber_h3core_NativeMethods_latLngToCell`.  The local
`H3Index out` is uninitialized; `out0` stands for its indeterminate initial
value, returned when the native call fails. -/
def Java_com_uber_h3core_NativeMethods_latLngToCell (allocOk : Bool)
    (native : Except Nat Int) (out0 : Int) : JniCall Int :=
  match native with
  | .error e => { thrown := ThrowH3Exception allocOk e, ret := out0 }
  | .ok v => { thrown := none, ret := v }

/-- Models `Java_com_uber_h3core_NativeMethods_maxGridDiskSize`; `sz0` is the
indeterminate initial value of the uninitialized local `jlong sz`. -/
def Java_com_uber_h3core_NativeMethods_maxGridDiskSize (allocOk : Bool)
    (native : Except Nat Int) (sz0 : Int) : JniCall Int :=
  match native with
  | .error e => { thrown := ThrowH3Exception allocOk e, ret := sz0 }
  | .ok v => { thrown := none, ret := v }

/-- Models `Java_com_uber_h3core_NativeMethods_cellToLatLng`: native call
first; on error, throw and return before touching the `verts` array; on
success, pin `verts` and write `coord.lat`, `coord.lng` at indices 0 and 1
only when the array has length at least 2. -/
def Java_com_uber_h3core_NativeMethods_cellToLatLng (D : Type) (allocOk pinOk : Bool)
    (native : Except Nat (LatLng D)) (verts : List D) : OutArrayCall (List D) :=
  match native with
  | .error e => { thrown := ThrowH3Exception allocOk e, arr := verts, pinned := false }
  | .ok coord =>
    if pinOk then
      { thrown := none,
        arr := if 2 ≤ verts.length then (verts.set 0 coord.lat).set 1 coord.lng else verts,
        pinned := true }
    else
      { thrown := ThrowOutOfMemoryError allocOk, arr := verts, pinned := false }

/-- Models `Java_com_uber_h3core_NativeMethods_vertexToLatLng`, which has the
same shape as `cellToLatLng`. -/
def Java_com_uber_h3core_NativeMethods_vertexToLatLng (D : Type) (allocOk pinOk : Bool)
    (native : Except Nat (LatLng D)) (latLng : List D) : OutArrayCall (List D) :=
  match native with
  | .error e => { thrown := ThrowH3Exception allocOk e, arr := latLng, pinned := false }
  | .ok coord =>
    if pinOk then
      { thrown := none,
        arr := if 2 ≤ latLng.length then (latLng.set 0 coord.lat).set 1 coord.lng else latLng,
        pinned := true }
    else
      { thrown := ThrowOutOfMemoryError allocOk, arr := latLng, pinned := false }

/-- Models `Java_com_uber_h3core_NativeMethods_cellToLocalIj`: native call
first; on error, throw and return before touching `coords`; on success, write
`ij.i`, `ij.j` at indices 0 and 1 only when the array has length at least 2. -/
def Java_com_uber_h3core_NativeMethods_cellToLocalIj (allocOk pinOk : Bool)
    (native : Except Nat CoordIJ) (coords : List Int) : OutArrayCall (List Int) :=
  match native with
  | .error e => { thrown := ThrowH3Exception allocOk e, arr := coords, pinned := false }
  | .ok ij =>
    if pinOk then
      { thrown := none,
        arr := if 2 ≤ coords.length then (coords.set 0 ij.i).set 1 ij.j else coords,
        pinned := true }
    else
      { thrown := ThrowOutOfMemoryError allocOk, arr := coords, pinned := false }

/-- Result of `constructCell`: thrown exception, returned value, and how many
times the pinned `digits` buffer was released. -/
structure ConstructCall where
  thrown : Option JavaThrowable
  ret : Int
  releases : Nat
deriving DecidableEq, Repr

/-- Models `Java_com_uber_h3core_NativeMethods_constructCell`: the local
`H3Index result` is initialized to 0; if pinning `digits` fails, an
`OutOfMemoryError` is thrown and 0 is returned; otherwise the native call runs,
the buffer is released, a nonzero code is translated, and `result` (left at 0
by a failed native call) is returned. -/
def Java_com_uber_h3core_NativeMethods_constructCell (allocOk pinOk : Bool)
    (native : Except Nat Int) : ConstructCall :=
  if pinOk then
    match native with
    | .error e => { thrown := ThrowH3Exception allocOk e, ret := 0, releases := 1 }
    | .ok v => { thrown := none, ret := v, releases := 1 }
  else
    { thrown := ThrowOutOfMemoryError allocOk, ret := 0, releases := 0 }

/-- Models `Java_com_uber_h3core_NativeMethods_cellToChildPos`: on a nonzero
native code it throws and explicitly returns 0. -/
def Java_com_uber_h3core_NativeMethods_cellToChildPos (allocOk : Bool)
    (native : Except Nat Int) : JniCall Int :=
  match native with
  | .error e => { thrown := ThrowH3Exception allocOk e, ret := 0 }
  | .ok pos => { thrown := none, ret := pos }

/-- Models `Java_com_uber_h3core_NativeMethods_childPosToCell`: on a nonzero
native code it throws and explicitly returns 0. -/
def Java_com_uber_h3core_NativeMethods_childPosToCell (allocOk : Bool)
    (native : Except Nat Int) : JniCall Int :=
  match native with
  | .error e => { thrown := ThrowH3Exception allocOk e, ret := 0 }
  | .ok out => { thrown := none, ret := out }

/-- Result of a binding entry point that pins one caller buffer, runs the
native call in place, and releases: thrown exception, number of release calls
on the buffer, and whether the native call ran. -/
structure PinnedBufCall where
  thrown : Option JavaThrowable
  releases : Nat
  nativeCalled : Bool
deriving DecidableEq, Repr

/-- Models `Java_com_uber_h3core_NativeMethods_gridDisk`: pin `results`, run
the native call (unbounded by the array's capacity), release with mode 0, and
translate a nonzero code. -/
def Java_com_uber_h3core_NativeMethods_gridDisk (allocOk pinOk : Bool)
    (native : Except Nat Unit) : PinnedBufCall :=
  if pinOk then
    { thrown := throwIfError allocOk native, releases := 1, nativeCalled := true }
  else
    { thrown := ThrowOutOfMemoryError allocOk, releases := 0, nativeCalled := false }

/-- Result of `gridDiskDistances`, which pins two caller buffers. -/
structure GridDiskDistancesCall where
  thrown : Option JavaThrowable
  resultsReleases : Nat
  distancesReleases : Nat
  distancesReleasedNull : Bool
  nativeCalled : Bool
deriving DecidableEq, Repr

/-- Models `Java_com_uber_h3core_NativeMethods_gridDiskDistances`.  Control
flow of the C function: pin `results`; if that succeeded pin `distances`; if
both succeeded run the native call and release `results`; when the `distances`
pin failed only `isOom` is set; `ReleaseIntArrayElements` on `distances` runs
unconditionally inside the outer branch (even with a `NULL` element pointer,
recorded by `distancesReleasedNull`), and `results` is then never released. -/
def Java_com_uber_h3core_NativeMethods_gridDiskDistances (allocOk pinResults pinDistances : Bool)
    (native : Except Nat Unit) : GridDiskDistancesCall :=
  if pinResults then
    if pinDistances then
      { thrown := throwIfError allocOk native,
        resultsReleases := 1, distancesReleases := 1,
        distancesReleasedNull := false, nativeCalled := true }
    else
      { thrown := ThrowOutOfMemoryError allocOk,
        resultsReleases := 0, distancesReleases := 1,
        distancesReleasedNull := true, nativeCalled := false }
  else
    { thrown := ThrowOutOfMemoryError allocOk,
      resultsReleases := 0, distancesReleases := 0,
      distancesReleasedNull := false, nativeCalled := false }

/-- Result of `compactCells`, which pins the input and output arrays. -/
structure CompactCall where
  thrown : Option JavaThrowable
  h3Releases : Nat
  resultsReleases : Nat
  nativeCalled : Bool
deriving DecidableEq, Repr

/-- Models `Java_com_uber_h3core_NativeMethods_compactCells`: pin `h3`, then
`results`; on both pins run the native call with `numHexes = |h3|`, release
both buffers, translate a nonzero code; if the `results` pin fails, release
`h3` and throw `OutOfMemoryError`. -/
def Java_com_uber_h3core_NativeMethods_compactCells (allocOk pinH3 pinResults : Bool)
    (native : Except Nat Unit) : CompactCall :=
  if pinH3 then
    if pinResults then
      { thrown := throwIfError allocOk native,
        h3Releases := 1, resultsReleases := 1, nativeCalled := true }
    else
      { thrown := ThrowOutOfMemoryError allocOk,
        h3Releases := 1, resultsReleases := 0, nativeCalled := false }
  else
    { thrown := ThrowOutOfMemoryError allocOk,
      h3Releases := 0, resultsReleases := 0, nativeCalled := false }

/-- Result of an entry point with an up-front capacity check on its output
array (`getRes0Cells`, `getPentagons`). -/
structure CheckedOutCall where
  thrown : Option JavaThrowable
  arr : List Int
  pinned : Bool
  releases : Nat
  nativeCalled : Bool
deriving DecidableEq, Repr

/-- Models `Java_com_uber_h3core_NativeMethods_getRes0Cells`: if the array's
length is below `res0CellCount()` (the oracle `res0Count`), throw
`OutOfMemoryError` and return before pinning or calling the native function;
otherwise pin, run the native call (which leaves the buffer as `nativeBuf`),
release with mode 0 and translate a nonzero code. -/
def Java_com_uber_h3core_NativeMethods_getRes0Cells (allocOk pinOk : Bool)
    (res0Count : Nat) (results : List Int) (native : Except Nat Unit)
    (nativeBuf : List Int) : CheckedOutCall :=
  if results.length < res0Count then
    { thrown := ThrowOutOfMemoryError allocOk, arr := results,
      pinned := false, releases := 0, nativeCalled := false }
  else if pinOk then
    { thrown := throwIfError allocOk native, arr := nativeBuf,
      pinned := true, releases := 1, nativeCalled := true }
  else
    { thrown := ThrowOutOfMemoryError allocOk, arr := results,
      pinned := false, releases := 0, nativeCalled := false }

/-- Models `Java_com_uber_h3core_NativeMethods_getPentagons`: identical shape
to `getRes0Cells` with the `pentagonCount()` oracle `pentCount`. -/
def Java_com_uber_h3core_NativeMethods_getPentagons (allocOk pinOk : Bool)
    (pentCount : Nat) (results : List Int) (native : Except Nat Unit)
    (nativeBuf : List Int) : CheckedOutCall :=
  if results.length < pentCount then
    { thrown := ThrowOutOfMemoryError allocOk, arr := results,
      pinned := false, releases := 0, nativeCalled := false }
  else if pinOk then
    { thrown := throwIfError allocOk native, arr := nativeBuf,
      pinned := true, releases := 1, nativeCalled := true }
  else
    { thrown := ThrowOutOfMemoryError allocOk, arr := results,
      pinned := false, releases := 0, nativeCalled := false }

/-- Result of `cellToVertexes`: the buffer is pinned before the combined
`non-NULL && sz >= 6` test, so `pinned` records the pin outcome while
`releases` counts release calls. -/
structure VertexesCall where
  thrown : Option JavaThrowable
  pinned : Bool
  releases : Nat
  nativeCalled : Bool
deriving DecidableEq, Repr

/-- Models `Java_com_uber_h3core_NativeMethods_cellToVertexes`: pin the
`vertexes` array, then test `vertexesElements != NULL && sz >= 6`; on success
run the native call, release, translate; otherwise throw `OutOfMemoryError`
without any release call. -/
def Java_com_uber_h3core_NativeMethods_cellToVertexes (allocOk pinOk : Bool)
    (sz : Nat) (native : Except Nat Unit) : VertexesCall :=
  if pinOk = true ∧ 6 ≤ sz then
    { thrown := throwIfError allocOk native,
      pinned := true, releases := 1, nativeCalled := true }
  else
    { thrown := ThrowOutOfMemoryError allocOk,
      pinned := pinOk, releases := 0, nativeCalled := false }

/-- Models the vertex-copy loop shared by `cellToBoundary` and
`directedEdgeToBoundary`, producing the `(index, value)` writes in program
order:
`for (jsize i = 0; i < sz && i < numVerts * 2; i += 2) {`
`  vertsElements[i] = boundary.verts[i / 2].lat;`
`  vertsElements[i + 1] = boundary.verts[i / 2].lng; }`. -/
def boundaryWrites (D : Type) (sz nv : Nat) (verts : Nat → LatLng D) (i : Nat) :
    List (Nat × D) :=
  if h : i < sz ∧ i < nv * 2 then
    (i, (verts (i / 2)).lat) :: (i + 1, (verts (i / 2)).lng) ::
      boundaryWrites D sz nv verts (i + 2)
  else []
termination_by sz - i
decreasing_by omega

/-- Applies a list of `(index, value)` writes to a raw memory in program
order (later writes overwrite earlier ones). -/
def applyWrites (D : Type) : List (Nat × D) → (Nat → D) → Nat → D
  | [], mem => mem
  | (j, v) :: rest, mem => applyWrites D rest (Function.update mem j v)

/-- Result of `cellToBoundary`/`directedEdgeToBoundary`: thrown exception,
returned `jint`, the final raw memory of the pinned buffer, and the list of
writes the copy loop performed. -/
structure BoundaryCall (D : Type) where
  thrown : Option JavaThrowable
  ret : Int
  mem : Nat → D
  writes : List (Nat × D)

/-- Models `Java_com_uber_h3core_NativeMethods_cellToBoundary`: native call
first, returning -1 on a nonzero code; then pin `verts` (length `sz`, raw
memory `mem`), copy the boundary vertices with the bounded loop, release with
mode 0 and return `boundary.numVerts`; a pin failure returns -1 with
`OutOfMemoryError`. -/
def Java_com_uber_h3core_NativeMethods_cellToBoundary (D : Type) (allocOk pinOk : Bool)
    (native : Except Nat (CellBoundary D)) (sz : Nat) (mem : Nat → D) :
    BoundaryCall D :=
  match native with
  | .error e => { thrown := ThrowH3Exception allocOk e, ret := -1, mem := mem, writes := [] }
  | .ok boundary =>
    if pinOk then
      { thrown := none, ret := (boundary.numVerts : Int),
        mem := applyWrites D (boundaryWrites D sz boundary.numVerts boundary.verts 0) mem,
        writes := boundaryWrites D sz boundary.numVerts boundary.verts 0 }
    else
      { thrown := ThrowOutOfMemoryError allocOk, ret := -1, mem := mem, writes := [] }

/-- Models `Java_com_uber_h3core_NativeMethods_directedEdgeToBoundary`, which
is the same copy as `cellToBoundary` over the edge boundary. -/
def Java_com_uber_h3core_NativeMethods_directedEdgeToBoundary (D : Type) (allocOk pinOk : Bool)
    (native : Except Nat (CellBoundary D)) (sz : Nat) (mem : Nat → D) :
    BoundaryCall D :=
  match native with
  | .error e => { thrown := ThrowH3Exception allocOk e, ret := -1, mem := mem, writes := [] }
  | .ok boundary =>
    if pinOk then
      { thrown := none, ret := (boundary.numVerts : Int),
        mem := applyWrites D (boundaryWrites D sz boundary.numVerts boundary.verts 0) mem,
        writes := boundaryWrites D sz boundary.numVerts boundary.verts 0 }
    else
      { thrown := ThrowOutOfMemoryError allocOk, ret := -1, mem := mem, writes := [] }

/-- Error code `E_MEMORY_ALLOC` of the native error enumeration, returned by
`CreateGeoPolygon` on its own allocation failures. -/
def E_MEMORY_ALLOC : Nat := 13

/-- Models the C struct `GeoPolygon` as built by `CreateGeoPolygon`: the outer
loop's vertex count, the hole count, and per hole its vertex count together
with the offset of its first double inside the pinned `holeVerts` buffer. -/
structure GeoPolygonM where
  geoloopNumVerts : Nat
  numHoles : Nat
  holes : List (Int × Int)
deriving DecidableEq, Repr

/-- Models the hole-population loop of `CreateGeoPolygon`:
`polygon->holes[i].numVerts = holeSizesElements[i] / 2;`
`polygon->holes[i].verts = holeVertsElements + offset;`
`offset += holeSizesElements[i];`
Each entry is `(numVerts, offset)`; C `int` division truncates toward zero
(`Int.tdiv`), and the `size_t` offset accumulation coincides with integer
pointer arithmetic. -/
def buildHoles (sizes : List Int) (offset : Int) : List (Int × Int) :=
  match sizes with
  | [] => []
  | s :: rest => (Int.tdiv s 2, offset) :: buildHoles rest (offset + s)

/-- Result of `CreateGeoPolygon`: its returned `H3Error`, anything it threw,
the populated polygon on success, and the array-release events it performed in
order.  On success with holes the `holeVerts` buffer intentionally stays
pinned for `DestroyGeoPolygon`. -/
structure CreatePolyResult where
  err : Nat
  thrown : Option JavaThrowable
  polygon : Option GeoPolygonM
  releases : List (ArrayId × ReleaseMode)
deriving DecidableEq, Repr

/-- Models `CreateGeoPolygon(env, verts, holeSizes, holeVerts, polygon)`:
`geoloop.numVerts` is the `verts` array length divided by two; on a pinned
`verts` with `numHoles = |holeSizes| > 0` it allocates the holes array, pins
`holeSizes` and `holeVerts`, populates the holes, and releases `holeSizes`
with `JNI_ABORT`; every failure path releases what was pinned with
`JNI_ABORT`, throws `OutOfMemoryError` and returns `E_MEMORY_ALLOC`.  When
`numHoles = 0` the C `holes` pointer is never set nor read; it is modelled as
the empty list. -/
def CreateGeoPolygon (D : Type) (allocOk pinVerts callocOk pinHoleSizes pinHoleVerts : Bool)
    (verts : List D) (holeSizes : List Int) (holeVerts : List D) : CreatePolyResult :=
  let numVerts := verts.length / 2
  if pinVerts then
    let numHoles := holeSizes.length
    if 0 < numHoles then
      if callocOk then
        if pinHoleSizes then
          if pinHoleVerts then
            { err := 0, thrown := none,
              polygon := some { geoloopNumVerts := numVerts, numHoles := numHoles,
                                holes := buildHoles holeSizes 0 },
              releases := [(ArrayId.holeSizesArr, ReleaseMode.abort)] }
          else
            { err := E_MEMORY_ALLOC, thrown := ThrowOutOfMemoryError allocOk,
              polygon := none,
              releases := [(ArrayId.vertsArr, ReleaseMode.abort),
                           (ArrayId.holeSizesArr, ReleaseMode.abort)] }
        else
          { err := E_MEMORY_ALLOC, thrown := ThrowOutOfMemoryError allocOk,
            polygon := none,
            releases := [(ArrayId.vertsArr, ReleaseMode.abort)] }
      else
        { err := E_MEMORY_ALLOC, thrown := ThrowOutOfMemoryError allocOk,
          polygon := none,
          releases := [(ArrayId.vertsArr, ReleaseMode.abort)] }
    else
      { err := 0, thrown := none,
        polygon := some { geoloopNumVerts := numVerts, numHoles := numHoles, holes := [] },
        releases := [] }
  else
    { err := E_MEMORY_ALLOC, thrown := ThrowOutOfMemoryError allocOk,
      polygon := none, releases := [] }

/-- Models `DestroyGeoPolygon`: release `verts` with `JNI_ABORT`, and when
there are holes also release the (single) pinned `holeVerts` buffer with
`JNI_ABORT` and free the holes array. -/
def DestroyGeoPolygon (numHoles : Nat) : List (ArrayId × ReleaseMode) :=
  (ArrayId.vertsArr, ReleaseMode.abort) ::
    (if 0 < numHoles then [(ArrayId.holeVertsArr, ReleaseMode.abort)] else [])

/-- Result of the two `polygonToCells` entry points: thrown exception, the
arguments handed to the native rasterizer (when it ran), and the release
events. -/
structure PolyCall (ArgT : Type) where
  thrown : Option JavaThrowable
  nativeArgs : Option ArgT
  releases : List (ArrayId × ReleaseMode)

/-- Models `Java_com_uber_h3core_NativeMethods_polygonToCells`: build the
polygon (returning early on failure), pin `results`, call
`polygonToCells(&polygon, res, flags, resultsElements)` — with no capacity
argument — release, destroy the polygon, and translate a nonzero code. -/
def Java_com_uber_h3core_NativeMethods_polygonToCells (D : Type)
    (allocOk pinVerts callocOk pinHoleSizes pinHoleVerts pinResults : Bool)
    (verts : List D) (holeSizes : List Int) (holeVerts : List D)
    (res flags : Int) (results : List Int) (native : Except Nat Unit) :
    PolyCall (GeoPolygonM × Int × Int) :=
  let c := CreateGeoPolygon D allocOk pinVerts callocOk pinHoleSizes pinHoleVerts
    verts holeSizes holeVerts
  match c.polygon with
  | none => { thrown := c.thrown, nativeArgs := none, releases := c.releases }
  | some poly =>
    if pinResults then
      { thrown := throwIfError allocOk native,
        nativeArgs := some (poly, res, flags),
        releases := c.releases ++ [(ArrayId.resultsArr, ReleaseMode.commit)] ++
          DestroyGeoPolygon poly.numHoles }
    else
      { thrown := ThrowOutOfMemoryError allocOk,
        nativeArgs := none,
        releases := c.releases ++ DestroyGeoPolygon poly.numHoles }

/-- Models `Java_com_uber_h3core_NativeMethods_polygonToCellsExperimental`:
identical to `polygonToCells` except that the native call receives the
`results` array length as an explicit output bound:
`polygonToCellsExperimental(&polygon, res, flags, resultsSize, resultsElements)`. -/
def Java_com_uber_h3core_NativeMethods_polygonToCellsExperimental (D : Type)
    (allocOk pinVerts callocOk pinHoleSizes pinHoleVerts pinResults : Bool)
    (verts : List D) (holeSizes : List Int) (holeVerts : List D)
    (res flags : Int) (results : List Int) (native : Except Nat Unit) :
    PolyCall (GeoPolygonM × Int × Int × Nat) :=
  let c := CreateGeoPolygon D allocOk pinVerts callocOk pinHoleSizes pinHoleVerts
    verts holeSizes holeVerts
  match c.polygon with
  | none => { thrown := c.thrown, nativeArgs := none, releases := c.releases }
  | some poly =>
    if pinResults then
      { thrown := throwIfError allocOk native,
        nativeArgs := some (poly, res, flags, results.length),
        releases := c.releases ++ [(ArrayId.resultsArr, ReleaseMode.commit)] ++
          DestroyGeoPolygon poly.numHoles }
    else
      { thrown := ThrowOutOfMemoryError allocOk,
        nativeArgs := none,
        releases := c.releases ++ DestroyGeoPolygon poly.numHoles }

/-! Helper lemmas shared by several claim theorems. -/

theorem ThrowOutOfMemoryError_ne_h3Exception (a : Bool) (c : Nat) :
    ThrowOutOfMemoryError a ≠ some (JavaThrowable.h3Exception c) := by
  cases a <;> simp [ThrowOutOfMemoryError]

theorem throwIfError_ok (a : Bool) (v : α) :
    throwIfError a (Except.ok v) = none := rfl

theorem throwIfError_error (a : Bool) (e : Nat) :
    throwIfError (α := α) a (Except.error e) = ThrowH3Exception a e := rfl

theorem CreateGeoPolygon_thrown_ne_h3Exception (D : Type)
    (a pv co ph pw : Bool) (verts : List D) (hs : List Int) (hv : List D) (c : Nat) :
    (CreateGeoPolygon D a pv co ph pw verts hs hv).thrown
      ≠ some (JavaThrowable.h3Exception c) := by
  unfold CreateGeoPolygon
  by_cases hn : 0 < hs.length <;>
    simp [hn] <;> split_ifs <;> simp [ThrowOutOfMemoryError_ne_h3Exception]

/-- C1: for every fallible operation of the binding (each modelled entry
point), when the native call returns a nonzero `H3Error` code the binding
throws an `H3Exception` constructed with exactly that code, and when the
native call returns `E_SUCCESS` no `H3Exception` is thrown.  The nonzero
direction is stated on the paths where the native call runs (pins succeeded)
with the exception-object allocation succeeding; the success direction is
stated for all pin and allocation outcomes. -/
theorem C1_nonzero_error_throws_h3exception :
    (∀ (e : Nat) (out0 : Int), e ≠ 0 →
      (Java_com_uber_h3core_NativeMethods_latLngToCell true (.error e) out0).thrown
        = some (JavaThrowable.h3Exception e)) ∧
    (∀ (a : Bool) (v out0 : Int) (c : Nat),
      (Java_com_uber_h3core_NativeMethods_latLngToCell a (.ok v) out0).thrown
        ≠ some (JavaThrowable.h3Exception c)) ∧
    (∀ (e : Nat), e ≠ 0 →
      (Java_com_uber_h3core_NativeMethods_compactCells true true true (.error e)).thrown
        = some (JavaThrowable.h3Exception e)) ∧
    (∀ (a p q : Bool) (c : Nat),
      (Java_com_uber_h3core_NativeMethods_compactCells a p q (.ok ())).thrown
        ≠ some (JavaThrowable.h3Exception c)) ∧
    (∀ (D : Type) (p : Bool) (e : Nat) (verts : List D), e ≠ 0 →
      (Java_com_uber_h3core_NativeMethods_cellToLatLng D true p (.error e) verts).thrown
        = some (JavaThrowable.h3Exception e)) ∧
    (∀ (D : Type) (a p : Bool) (coord : LatLng D) (verts : List D) (c : Nat),
      (Java_com_uber_h3core_NativeMethods_cellToLatLng D a p (.ok coord) verts).thrown
        ≠ some (JavaThrowable.h3Exception c)) ∧
    (∀ (D : Type) (p : Bool) (e sz : Nat) (mem : Nat → D), e ≠ 0 →
      (Java_com_uber_h3core_NativeMethods_cellToBoundary D true p (.error e) sz mem).thrown
        = some (JavaThrowable.h3Exception e)) ∧
    (∀ (D : Type) (a p : Bool) (b : CellBoundary D) (sz : Nat) (mem : Nat → D) (c : Nat),
      (Java_com_uber_h3core_NativeMethods_cellToBoundary D a p (.ok b) sz mem).thrown
        ≠ some (JavaThrowable.h3Exception c)) ∧
    (∀ (e : Nat) (sz0 : Int), e ≠ 0 →
      (Java_com_uber_h3core_NativeMethods_maxGridDiskSize true (.error e) sz0).thrown
        = some (JavaThrowable.h3Exception e)) ∧
    (∀ (a : Bool) (v sz0 : Int) (c : Nat),
      (Java_com_uber_h3core_NativeMethods_maxGridDiskSize a (.ok v) sz0).thrown
        ≠ some (JavaThrowable.h3Exception c)) ∧
    (∀ (e : Nat), e ≠ 0 →
      (Java_com_uber_h3core_NativeMethods_gridDisk true true (.error e)).thrown
        = some (JavaThrowable.h3Exception e)) ∧
    (∀ (a p : Bool) (c : Nat),
      (Java_com_uber_h3core_NativeMethods_gridDisk a p (.ok ())).thrown
        ≠ some (JavaThrowable.h3Exception c)) ∧
    (∀ (e : Nat), e ≠ 0 →
      (Java_com_uber_h3core_NativeMethods_gridDiskDistances true true true (.error e)).thrown
        = some (JavaThrowable.h3Exception e)) ∧
    (∀ (a p q : Bool) (c : Nat),
      (Java_com_uber_h3core_NativeMethods_gridDiskDistances a p q (.ok ())).thrown
        ≠ some (JavaThrowable.h3Exception c)) ∧
    (∀ (e : Nat), e ≠ 0 →
      (Java_com_uber_h3core_NativeMethods_constructCell true true (.error e)).thrown
        = some (JavaThrowable.h3Exception e)) ∧
    (∀ (a p : Bool) (v : Int) (c : Nat),
      (Java_com_uber_h3core_NativeMethods_constructCell a p (.ok v)).thrown
        ≠ some (JavaThrowable.h3Exception c)) ∧
    (∀ (e : Nat), e ≠ 0 →
      (Java_com_uber_h3core_NativeMethods_cellToChildPos true (.error e)).thrown
        = some (JavaThrowable.h3Exception e)) ∧
    (∀ (a : Bool) (v : Int) (c : Nat),
      (Java_com_uber_h3core_NativeMethods_cellToChildPos a (.ok v)).thrown
        ≠ some (JavaThrowable.h3Exception c)) ∧
    (∀ (e : Nat), e ≠ 0 →
      (Java_com_uber_h3core_NativeMethods_childPosToCell true (.error e)).thrown
        = some (JavaThrowable.h3Exception e)) ∧
    (∀ (a : Bool) (v : Int) (c : Nat),
      (Java_com_uber_h3core_NativeMethods_childPosToCell a (.ok v)).thrown
        ≠ some (JavaThrowable.h3Exception c)) ∧
    (∀ (p : Bool) (e : Nat) (coords : List Int), e ≠ 0 →
      (Java_com_uber_h3core_NativeMethods_cellToLocalIj true p (.error e) coords).thrown
        = some (JavaThrowable.h3Exception e)) ∧
    (∀ (a p : Bool) (ij : CoordIJ) (coords : List Int) (c : Nat),
      (Java_com_uber_h3core_NativeMethods_cellToLocalIj a p (.ok ij) coords).thrown
        ≠ some (JavaThrowable.h3Exception c)) ∧
    (∀ (D : Type) (p : Bool) (e : Nat) (latLng : List D), e ≠ 0 →
      (Java_com_uber_h3core_NativeMethods_vertexToLatLng D true p (.error e) latLng).thrown
        = some (JavaThrowable.h3Exception e)) ∧
    (∀ (D : Type) (a p : Bool) (coord : LatLng D) (latLng : List D) (c : Nat),
      (Java_com_uber_h3core_NativeMethods_vertexToLatLng D a p (.ok coord) latLng).thrown
        ≠ some (JavaThrowable.h3Exception c)) ∧
    (∀ (e count : Nat) (results nbuf : List Int), e ≠ 0 → count ≤ results.length →
      (Java_com_uber_h3core_NativeMethods_getRes0Cells true true count results
        (.error e) nbuf).thrown = some (JavaThrowable.h3Exception e)) ∧
    (∀ (a p : Bool) (count : Nat) (results nbuf : List Int) (c : Nat),
      (Java_com_uber_h3core_NativeMethods_getRes0Cells a p count results
        (.ok ()) nbuf).thrown ≠ some (JavaThrowable.h3Exception c)) ∧
    (∀ (e count : Nat) (results nbuf : List Int), e ≠ 0 → count ≤ results.length →
      (Java_com_uber_h3core_NativeMethods_getPentagons true true count results
        (.error e) nbuf).thrown = some (JavaThrowable.h3Exception e)) ∧
    (∀ (a p : Bool) (count : Nat) (results nbuf : List Int) (c : Nat),
      (Java_com_uber_h3core_NativeMethods_getPentagons a p count results
        (.ok ()) nbuf).thrown ≠ some (JavaThrowable.h3Exception c)) ∧
    (∀ (D : Type) (e : Nat) (verts : List D) (hs : List Int) (hv : List D)
        (res flags : Int) (results : List Int), e ≠ 0 →
      (Java_com_uber_h3core_NativeMethods_polygonToCells D true true true true true true
        verts hs hv res flags results (.error e)).thrown
        = some (JavaThrowable.h3Exception e)) ∧
    (∀ (D : Type) (a pv co ph pw pr : Bool) (verts : List D) (hs : List Int) (hv : List D)
        (res flags : Int) (results : List Int) (c : Nat),
      (Java_com_uber_h3core_NativeMethods_polygonToCells D a pv co ph pw pr
        verts hs hv res flags results (.ok ())).thrown
        ≠ some (JavaThrowable.h3Exception c)) ∧
    (∀ (D : Type) (e : Nat) (verts : List D) (hs : List Int) (hv : List D)
        (res flags : Int) (results : List Int), e ≠ 0 →
      (Java_com_uber_h3core_NativeMethods_polygonToCellsExperimental D true true true true
        true true verts hs hv res flags results (.error e)).thrown
        = some (JavaThrowable.h3Exception e)) ∧
    (∀ (D : Type) (a pv co ph pw pr : Bool) (verts : List D) (hs : List Int) (hv : List D)
        (res flags : Int) (results : List Int) (c : Nat),
      (Java_com_uber_h3core_NativeMethods_polygonToCellsExperimental D a pv co ph pw pr
        verts hs hv res flags results (.ok ())).thrown
        ≠ some (JavaThrowable.h3Exception c)) ∧
    (∀ (D : Type) (p : Bool) (e sz : Nat) (mem : Nat → D), e ≠ 0 →
      (Java_com_uber_h3core_NativeMethods_directedEdgeToBoundary D true p
        (.error e) sz mem).thrown = some (JavaThrowable.h3Exception e)) ∧
    (∀ (D : Type) (a p : Bool) (b : CellBoundary D) (sz : Nat) (mem : Nat → D) (c : Nat),
      (Java_com_uber_h3core_NativeMethods_directedEdgeToBoundary D a p
        (.ok b) sz mem).thrown ≠ some (JavaThrowable.h3Exception c)) ∧
    (∀ (e sz : Nat), e ≠ 0 → 6 ≤ sz →
      (Java_com_uber_h3core_NativeMethods_cellToVertexes true true sz (.error e)).thrown
        = some (JavaThrowable.h3Exception e)) ∧
    (∀ (a p : Bool) (sz : Nat) (c : Nat),
      (Java_com_uber_h3core_NativeMethods_cellToVertexes a p sz (.ok ())).thrown
        ≠ some (JavaThrowable.h3Exception c)) := by
  refine ⟨?_, ?_, ?_, ?_, ?_, ?_, ?_, ?_, ?_, ?_, ?_, ?_, ?_, ?_, ?_, ?_, ?_, ?_,
    ?_, ?_, ?_, ?_, ?_, ?_, ?_, ?_, ?_, ?_, ?_, ?_, ?_, ?_, ?_, ?_, ?_, ?_⟩
  · intro e out0 he
    simp [Java_com_uber_h3core_NativeMethods_latLngToCell, ThrowH3Exception]
  · intro a v out0 c
    simp [Java_com_uber_h3core_NativeMethods_latLngToCell]
  · intro e he
    simp [Java_com_uber_h3core_NativeMethods_compactCells, throwIfError, ThrowH3Exception]
  · intro a p q c
    cases p <;> cases q <;>
      simp [Java_com_uber_h3core_NativeMethods_compactCells, throwIfError,
        ThrowOutOfMemoryError_ne_h3Exception]
  · intro D p e verts he
    simp [Java_com_uber_h3core_NativeMethods_cellToLatLng, ThrowH3Exception]
  · intro D a p coord verts c
    cases p <;>
      simp [Java_com_uber_h3core_NativeMethods_cellToLatLng,
        ThrowOutOfMemoryError_ne_h3Exception]
  · intro D p e sz mem he
    simp [Java_com_uber_h3core_NativeMethods_cellToBoundary, ThrowH3Exception]
  · intro D a p b sz mem c
    cases p <;>
      simp [Java_com_uber_h3core_NativeMethods_cellToBoundary,
        ThrowOutOfMemoryError_ne_h3Exception]
  · intro e sz0 he
    simp [Java_com_uber_h3core_NativeMethods_maxGridDiskSize, ThrowH3Exception]
  · intro a v sz0 c
    simp [Java_com_uber_h3core_NativeMethods_maxGridDiskSize]
  · intro e he
    simp [Java_com_uber_h3core_NativeMethods_gridDisk, throwIfError, ThrowH3Exception]
  · intro a p c
    cases p <;>
      simp [Java_com_uber_h3core_NativeMethods_gridDisk, throwIfError,
        ThrowOutOfMemoryError_ne_h3Exception]
  · intro e he
    simp [Java_com_uber_h3core_NativeMethods_gridDiskDistances, throwIfError,
      ThrowH3Exception]
  · intro a p q c
    cases p <;> cases q <;>
      simp [Java_com_uber_h3core_NativeMethods_gridDiskDistances, throwIfError,
        ThrowOutOfMemoryError_ne_h3Exception]
  · intro e he
    simp [Java_com_uber_h3core_NativeMethods_constructCell, ThrowH3Exception]
  · intro a p v c
    cases p <;>
      simp [Java_com_uber_h3core_NativeMethods_constructCell,
        ThrowOutOfMemoryError_ne_h3Exception]
  · intro e he
    simp [Java_com_uber_h3core_NativeMethods_cellToChildPos, ThrowH3Exception]
  · intro a v c
    simp [Java_com_uber_h3core_NativeMethods_cellToChildPos]
  · intro e he
    simp [Java_com_uber_h3core_NativeMethods_childPosToCell, ThrowH3Exception]
  · intro a v c
    simp [Java_com_uber_h3core_NativeMethods_childPosToCell]
  · intro p e coords he
    simp [Java_com_uber_h3core_NativeMethods_cellToLocalIj, ThrowH3Exception]
  · intro a p ij coords c
    cases p <;>
      simp [Java_com_uber_h3core_NativeMethods_cellToLocalIj,
        ThrowOutOfMemoryError_ne_h3Exception]
  · intro D p e latLng he
    simp [Java_com_uber_h3core_NativeMethods_vertexToLatLng, ThrowH3Exception]
  · intro D a p coord latLng c
    cases p <;>
      simp [Java_com_uber_h3core_NativeMethods_vertexToLatLng,
        ThrowOutOfMemoryError_ne_h3Exception]
  · intro e count results nbuf he hlen
    simp [Java_com_uber_h3core_NativeMethods_getRes0Cells, throwIfError,
      ThrowH3Exception, Nat.not_lt.mpr hlen]
  · intro a p count results nbuf c
    by_cases hlt : results.length < count <;> cases p <;>
      simp [Java_com_uber_h3core_NativeMethods_getRes0Cells, throwIfError, hlt,
        ThrowOutOfMemoryError_ne_h3Exception]
  · intro e count results nbuf he hlen
    simp [Java_com_uber_h3core_NativeMethods_getPentagons, throwIfError,
      ThrowH3Exception, Nat.not_lt.mpr hlen]
  · intro a p count results nbuf c
    by_cases hlt : results.length < count <;> cases p <;>
      simp [Java_com_uber_h3core_NativeMethods_getPentagons, throwIfError, hlt,
        ThrowOutOfMemoryError_ne_h3Exception]
  · intro D e verts hs hv res flags results he
    by_cases hn : 0 < hs.length <;>
      simp [Java_com_uber_h3core_NativeMethods_polygonToCells, CreateGeoPolygon, hn,
        throwIfError, ThrowH3Exception]
  · intro D a pv co ph pw pr verts hs hv res flags results c
    cases hp : (CreateGeoPolygon D a pv co ph pw verts hs hv).polygon with
    | none =>
      simp [Java_com_uber_h3core_NativeMethods_polygonToCells, hp]
      exact CreateGeoPolygon_thrown_ne_h3Exception D a pv co ph pw verts hs hv c
    | some poly =>
      cases pr <;>
        simp [Java_com_uber_h3core_NativeMethods_polygonToCells, hp, throwIfError,
          ThrowOutOfMemoryError_ne_h3Exception]
  · intro D e verts hs hv res flags results he
    by_cases hn : 0 < hs.length <;>
      simp [Java_com_uber_h3core_NativeMethods_polygonToCellsExperimental,
        CreateGeoPolygon, hn, throwIfError, ThrowH3Exception]
  · intro D a pv co ph pw pr verts hs hv res flags results c
    cases hp : (CreateGeoPolygon D a pv co ph pw verts hs hv).polygon with
    | none =>
      simp [Java_com_uber_h3core_NativeMethods_polygonToCellsExperimental, hp]
      exact CreateGeoPolygon_thrown_ne_h3Exception D a pv co ph pw verts hs hv c
    | some poly =>
      cases pr <;>
        simp [Java_com_uber_h3core_NativeMethods_polygonToCellsExperimental, hp, throwIfError,
          ThrowOutOfMemoryError_ne_h3Exception]
  · intro D p e sz mem he
    simp [Java_com_uber_h3core_NativeMethods_directedEdgeToBoundary, ThrowH3Exception]
  · intro D a p b sz mem c
    cases p <;>
      simp [Java_com_uber_h3core_NativeMethods_directedEdgeToBoundary,
        ThrowOutOfMemoryError_ne_h3Exception]
  · intro e sz he hsz
    simp [Java_com_uber_h3core_NativeMethods_cellToVertexes, throwIfError,
      ThrowH3Exception, hsz]
  · intro a p sz c
    by_cases hsz : 6 ≤ sz <;> cases p <;>
      simp [Java_com_uber_h3core_NativeMethods_cellToVertexes, throwIfError, hsz,
        ThrowOutOfMemoryError_ne_h3Exception]

theorem applyWrites_not_written (D : Type) (ws : List (Nat × D)) :
    ∀ (mem : Nat → D) (j : Nat), (∀ q ∈ ws, q.1 ≠ j) → applyWrites D ws mem j = mem j := by
  induction ws with
  | nil => intro mem j _; rfl
  | cons q rest ih =>
    intro mem j h
    obtain ⟨a, v⟩ := q
    have ha : a ≠ j := h (a, v) (List.mem_cons_self _ _)
    have hrest : ∀ q ∈ rest, q.1 ≠ j := fun q hq => h q (List.mem_cons_of_mem _ hq)
    calc applyWrites D ((a, v) :: rest) mem j
        = applyWrites D rest (Function.update mem a v) j := rfl
      _ = Function.update mem a v j := ih _ _ hrest
      _ = mem j := Function.update_noteq (Ne.symm ha) _ _

theorem boundaryWrites_index_lower (D : Type) (sz nv : Nat) (verts : Nat → LatLng D) :
    ∀ i, ∀ q ∈ boundaryWrites D sz nv verts i, i ≤ q.1 := by
  intro i
  induction i using boundaryWrites.induct D sz nv verts with
  | case1 x hx ih =>
    intro q hq
    rw [boundaryWrites, dif_pos hx] at hq
    simp only [List.mem_cons] at hq
    rcases hq with rfl | rfl | hq
    · omega
    · omega
    · have := ih q hq; omega
  | case2 x hx =>
    intro q hq
    rw [boundaryWrites, dif_neg hx] at hq
    simp at hq

theorem boundaryWrites_copy (D : Type) (sz nv : Nat) (verts : Nat → LatLng D)
    (hsz : 2 * nv ≤ sz) :
    ∀ i, i % 2 = 0 →
      ∀ (mem : Nat → D) (k : Nat), i ≤ 2 * k → k < nv →
        applyWrites D (boundaryWrites D sz nv verts i) mem (2 * k) = (verts k).lat ∧
        applyWrites D (boundaryWrites D sz nv verts i) mem (2 * k + 1) = (verts k).lng := by
  intro i
  induction i using boundaryWrites.induct D sz nv verts with
  | case1 x hx ih =>
    intro hpar mem k hik hk
    rw [boundaryWrites, dif_pos hx]
    simp only [applyWrites]
    by_cases hxk : x = 2 * k
    · have hx2 : x / 2 = k := by omega
      have hrest := boundaryWrites_index_lower D sz nv verts (x + 2)
      constructor
      · rw [applyWrites_not_written D _ _ _ (fun q hq => by have := hrest q hq; omega)]
        rw [Function.update_noteq (by omega), hxk.symm, Function.update_same, hx2]
      · rw [applyWrites_not_written D _ _ _ (fun q hq => by have := hrest q hq; omega)]
        rw [show 2 * k + 1 = x + 1 by omega, Function.update_same, hx2]
    · have hik2 : x + 2 ≤ 2 * k := by omega
      exact ih (by omega) _ k hik2 hk
  | case2 x hx =>
    intro hpar mem k hik hk
    exact absurd (And.intro (by omega) (by omega)) hx

/-- C3 (code bug): the vertex-copy loop shared by `cellToBoundary` and
`directedEdgeToBoundary` guards only the even index `i` with `i < sz` but also
writes at `i + 1`; with the odd capacity `sz = 1` and a 6-vertex boundary
(resp. a 2-vertex edge boundary) the loop performs a write at index 1, which
is not strictly less than `sz`, refuting the claim that all buffer writes stay
in bounds. -/
theorem C3_boundary_copy_writes_out_of_bounds :
    (∃ q ∈ (Java_com_uber_h3core_NativeMethods_cellToBoundary Nat true true
      (.ok ⟨6, fun n => ⟨n, n⟩, by omega⟩) 1 (fun _ => 0)).writes, ¬ q.1 < 1) ∧
    (∃ q ∈ (Java_com_uber_h3core_NativeMethods_directedEdgeToBoundary Nat true true
      (.ok ⟨2, fun n => ⟨n, n⟩, by omega⟩) 1 (fun _ => 0)).writes, ¬ q.1 < 1) := by
  constructor
  · refine ⟨(1, 0), ?_, by omega⟩
    show (1, 0) ∈ boundaryWrites Nat 1 6 (fun n => ⟨n, n⟩) 0
    rw [boundaryWrites, dif_pos (by omega), boundaryWrites, dif_neg (by omega)]
    simp
  · refine ⟨(1, 0), ?_, by omega⟩
    show (1, 0) ∈ boundaryWrites Nat 1 2 (fun n => ⟨n, n⟩) 0
    rw [boundaryWrites, dif_pos (by omega), boundaryWrites, dif_neg (by omega)]
    simp

/-- C5: on a successful native call with a caller array of sufficient
capacity, `cellToBoundary` returns the boundary's vertex count (nonnegative
and at most 10) and writes vertex `k` at indices `2k` and `2k + 1`; on a
nonzero native code or a pin failure it returns -1. -/
theorem C5_cellToBoundary_success_and_error :
    ∀ (D : Type) (a p : Bool) (b : CellBoundary D) (sz : Nat) (mem : Nat → D) (e : Nat),
      (2 * b.numVerts ≤ sz →
        (Java_com_uber_h3core_NativeMethods_cellToBoundary D a true (.ok b) sz mem).ret
          = (b.numVerts : Int) ∧
        0 ≤ (Java_com_uber_h3core_NativeMethods_cellToBoundary D a true (.ok b) sz mem).ret ∧
        (Java_com_uber_h3core_NativeMethods_cellToBoundary D a true (.ok b) sz mem).ret ≤ 10 ∧
        (∀ k, k < b.numVerts →
          (Java_com_uber_h3core_NativeMethods_cellToBoundary D a true (.ok b) sz mem).mem (2 * k)
            = (b.verts k).lat ∧
          (Java_com_uber_h3core_NativeMethods_cellToBoundary D a true (.ok b) sz mem).mem (2 * k + 1)
            = (b.verts k).lng)) ∧
      (Java_com_uber_h3core_NativeMethods_cellToBoundary D a p (.error e) sz mem).ret = -1 ∧
      (Java_com_uber_h3core_NativeMethods_cellToBoundary D a false (.ok b) sz mem).ret = -1 := by
  intro D a p b sz mem e
  refine ⟨fun hsz => ?_, rfl, rfl⟩
  have hret : (Java_com_uber_h3core_NativeMethods_cellToBoundary D a true (.ok b) sz mem).ret
      = (b.numVerts : Int) := rfl
  refine ⟨hret, ?_, ?_, fun k hk => ?_⟩
  · rw [hret]; exact Int.ofNat_nonneg b.numVerts
  · rw [hret]; exact_mod_cast b.numVerts_le
  · exact boundaryWrites_copy D sz b.numVerts b.verts hsz 0 rfl mem k (by omega) hk

/-- Witness for C5 at a concrete 2-vertex boundary, capacity 4, and a
concrete native error. -/
theorem C5_witness :
    (Java_com_uber_h3core_NativeMethods_cellToBoundary Nat true true
      (.ok ⟨2, fun n => ⟨10 * n + 1, 10 * n + 2⟩, by omega⟩) 4 (fun _ => 0)).ret = 2 ∧
    (Java_com_uber_h3core_NativeMethods_cellToBoundary Nat true true
      (.ok ⟨2, fun n => ⟨10 * n + 1, 10 * n + 2⟩, by omega⟩) 4 (fun _ => 0)).mem 0 = 1 ∧
    (Java_com_uber_h3core_NativeMethods_cellToBoundary Nat true true
      (.ok ⟨2, fun n => ⟨10 * n + 1, 10 * n + 2⟩, by omega⟩) 4 (fun _ => 0)).mem 1 = 2 ∧
    (Java_com_uber_h3core_NativeMethods_cellToBoundary Nat true true
      (.ok ⟨2, fun n => ⟨10 * n + 1, 10 * n + 2⟩, by omega⟩) 4 (fun _ => 0)).mem 2 = 11 ∧
    (Java_com_uber_h3core_NativeMethods_cellToBoundary Nat true true
      (.ok ⟨2, fun n => ⟨10 * n + 1, 10 * n + 2⟩, by omega⟩) 4 (fun _ => 0)).mem 3 = 12 ∧
    (Java_com_uber_h3core_NativeMethods_cellToBoundary Nat true false
      (.error 5 : Except Nat (CellBoundary Nat)) 4 (fun _ => 0)).ret = -1 := by
  have h := C5_cellToBoundary_success_and_error Nat true false
    ⟨2, fun n => ⟨10 * n + 1, 10 * n + 2⟩, by decide⟩ 4 (fun _ => 0) 5
  have hs := h.1 (by decide)
  have h0 := hs.2.2.2 0 (by decide)
  have h1 := hs.2.2.2 1 (by decide)
  exact ⟨hs.1, h0.1, h0.2, h1.1, h1.2, h.2.1⟩

/-- Witness for C1 at concrete codes 4 and 5 for the cited entry points. -/
theorem C1_witness :
    (Java_com_uber_h3core_NativeMethods_latLngToCell true (.error 4) 0).thrown
      = some (JavaThrowable.h3Exception 4) ∧
    (Java_com_uber_h3core_NativeMethods_latLngToCell true (.ok 99) 0).thrown
      ≠ some (JavaThrowable.h3Exception 4) ∧
    (Java_com_uber_h3core_NativeMethods_compactCells true true true (.error 5)).thrown
      = some (JavaThrowable.h3Exception 5) := by
  have h := C1_nonzero_error_throws_h3exception
  exact ⟨h.1 4 0 (by decide), h.2.1 true 99 0 4, h.2.2.1 5 (by decide)⟩

/-- C2 (counterexample): `cellToLatLng` with a 1-element output array — too
small for the two-double result — reports success (nothing thrown) and leaves
the array unchanged: a silent truncation without any typed error, although the
operation is not the bounded streaming variant. -/
theorem C2_counterexample_silent_truncation :
    (Java_com_uber_h3core_NativeMethods_cellToLatLng Nat true true (.ok ⟨7, 8⟩) [5]).thrown
      = none ∧
    (Java_com_uber_h3core_NativeMethods_cellToLatLng Nat true true (.ok ⟨7, 8⟩) [5]).arr
      = [5] ∧
    (Java_com_uber_h3core_NativeMethods_cellToLatLng Nat true true (.ok ⟨7, 8⟩) [5]).arr.length
      < 2 := by
  exact ⟨rfl, rfl, by decide⟩

/-- C2 (amended): the fixed-size write-back operations `cellToLatLng`,
`vertexToLatLng` and `cellToLocalIj` do not signal a typed error when the
output array's capacity is insufficient: they skip the write entirely (the
array is unchanged, so no write goes beyond the buffer) and report success. -/
theorem C2_amended_truncating_ops_report_success :
    ∀ (D : Type) (a : Bool) (coord : LatLng D) (ij : CoordIJ)
      (verts latLng : List D) (coords : List Int),
      verts.length < 2 → latLng.length < 2 → coords.length < 2 →
      ((Java_com_uber_h3core_NativeMethods_cellToLatLng D a true (.ok coord) verts).thrown
          = none ∧
        (Java_com_uber_h3core_NativeMethods_cellToLatLng D a true (.ok coord) verts).arr
          = verts) ∧
      ((Java_com_uber_h3core_NativeMethods_vertexToLatLng D a true (.ok coord) latLng).thrown
          = none ∧
        (Java_com_uber_h3core_NativeMethods_vertexToLatLng D a true (.ok coord) latLng).arr
          = latLng) ∧
      ((Java_com_uber_h3core_NativeMethods_cellToLocalIj a true (.ok ij) coords).thrown
          = none ∧
        (Java_com_uber_h3core_NativeMethods_cellToLocalIj a true (.ok ij) coords).arr
          = coords) := by
  intro D a coord ij verts latLng coords hv hl hc
  refine ⟨⟨?_, ?_⟩, ⟨?_, ?_⟩, ⟨?_, ?_⟩⟩ <;>
    simp [Java_com_uber_h3core_NativeMethods_cellToLatLng,
      Java_com_uber_h3core_NativeMethods_vertexToLatLng,
      Java_com_uber_h3core_NativeMethods_cellToLocalIj,
      show ¬ 2 ≤ verts.length from by omega,
      show ¬ 2 ≤ latLng.length from by omega,
      show ¬ 2 ≤ coords.length from by omega]

/-- Witness for the amended C2 on concrete 1-element arrays. -/
theorem C2_amended_witness :
    (Java_com_uber_h3core_NativeMethods_cellToLatLng Nat true true (.ok ⟨1, 2⟩) [9]).arr
      = [9] ∧
    (Java_com_uber_h3core_NativeMethods_vertexToLatLng Nat true true (.ok ⟨1, 2⟩) [8]).arr
      = [8] ∧
    (Java_com_uber_h3core_NativeMethods_cellToLocalIj true true (.ok ⟨1, 2⟩) [7]).thrown
      = none := by
  have h := C2_amended_truncating_ops_report_success Nat true ⟨1, 2⟩ ⟨1, 2⟩ [9] [8] [7]
    (by decide) (by decide) (by decide)
  exact ⟨h.1.2, h.2.1.2, h.2.2.1⟩

/-- C4: `polygonToCellsExperimental` hands the native call the caller's
`results` length as an explicit output bound (and a nonzero code — such as the
buffer-overflow code — is translated into an `H3Exception`), whereas
`polygonToCells` invokes its native call with no capacity argument: the
arguments it passes are the same for output arrays of any two lengths. -/
theorem C4_experimental_bounded_plain_unbounded :
    ∀ (D : Type) (verts : List D) (hs : List Int) (hv : List D) (res flags : Int)
      (results results2 : List Int) (native : Except Nat Unit) (e : Nat), e ≠ 0 →
      (∃ poly, (Java_com_uber_h3core_NativeMethods_polygonToCellsExperimental D
          true true true true true true verts hs hv res flags results native).nativeArgs
        = some (poly, res, flags, results.length)) ∧
      (Java_com_uber_h3core_NativeMethods_polygonToCellsExperimental D
          true true true true true true verts hs hv res flags results (.error e)).thrown
        = some (JavaThrowable.h3Exception e) ∧
      ((Java_com_uber_h3core_NativeMethods_polygonToCells D
          true true true true true true verts hs hv res flags results native).nativeArgs
        = (Java_com_uber_h3core_NativeMethods_polygonToCells D
          true true true true true true verts hs hv res flags results2 native).nativeArgs) ∧
      (∃ poly, (Java_com_uber_h3core_NativeMethods_polygonToCells D
          true true true true true true verts hs hv res flags results native).nativeArgs
        = some (poly, res, flags)) := by
  intro D verts hs hv res flags results results2 native e he
  by_cases hn : 0 < hs.length
  · refine ⟨⟨⟨verts.length / 2, hs.length, buildHoles hs 0⟩, ?_⟩, ?_, ?_,
      ⟨⟨verts.length / 2, hs.length, buildHoles hs 0⟩, ?_⟩⟩ <;>
      simp [Java_com_uber_h3core_NativeMethods_polygonToCellsExperimental,
        Java_com_uber_h3core_NativeMethods_polygonToCells, CreateGeoPolygon, hn,
        throwIfError, ThrowH3Exception]
  · refine ⟨⟨⟨verts.length / 2, hs.length, []⟩, ?_⟩, ?_, ?_,
      ⟨⟨verts.length / 2, hs.length, []⟩, ?_⟩⟩ <;>
      simp [Java_com_uber_h3core_NativeMethods_polygonToCellsExperimental,
        Java_com_uber_h3core_NativeMethods_polygonToCells, CreateGeoPolygon, hn,
        throwIfError, ThrowH3Exception]

/-- Witness for C4 on a concrete hole-free square and arrays of lengths 3 and
7, with the concrete buffer-overflow-style code 14. -/
theorem C4_witness :
    (∃ poly, (Java_com_uber_h3core_NativeMethods_polygonToCellsExperimental Nat
        true true true true true true [1, 2, 3, 4] [] [] 9 0 [0, 0, 0] (.ok ())).nativeArgs
      = some (poly, 9, 0, 3)) ∧
    (Java_com_uber_h3core_NativeMethods_polygonToCellsExperimental Nat
        true true true true true true [1, 2, 3, 4] [] [] 9 0 [0, 0, 0] (.error 14)).thrown
      = some (JavaThrowable.h3Exception 14) ∧
    ((Java_com_uber_h3core_NativeMethods_polygonToCells Nat
        true true true true true true [1, 2, 3, 4] [] [] 9 0 [0, 0, 0] (.ok ())).nativeArgs
      = (Java_com_uber_h3core_NativeMethods_polygonToCells Nat
        true true true true true true [1, 2, 3, 4] [] [] 9 0
        [0, 0, 0, 0, 0, 0, 0] (.ok ())).nativeArgs) := by
  have h := C4_experimental_bounded_plain_unbounded Nat [1, 2, 3, 4] [] [] 9 0
    [0, 0, 0] [0, 0, 0, 0, 0, 0, 0] (.ok ()) 14 (by decide)
  obtain ⟨⟨poly, hp⟩, _, hind, _⟩ := h
  have h2 := C4_experimental_bounded_plain_unbounded Nat [1, 2, 3, 4] [] [] 9 0
    [0, 0, 0] [0, 0, 0, 0, 0, 0, 0] (.error 14) 14 (by decide)
  exact ⟨⟨poly, hp⟩, h2.2.1, hind⟩

theorem buildHoles_length (sizes : List Int) :
    ∀ off : Int, (buildHoles sizes off).length = sizes.length := by
  induction sizes with
  | nil => intro off; rfl
  | cons s rest ih => intro off; simp [buildHoles, ih]

theorem buildHoles_getD (sizes : List Int) :
    ∀ (off : Int) (i : Nat), i < sizes.length →
      (buildHoles sizes off).getD i (0, 0) =
        (Int.tdiv (sizes.getD i 0) 2, off + (sizes.take i).sum) := by
  induction sizes with
  | nil => intro off i h; simp at h
  | cons s rest ih =>
    intro off i h
    cases i with
    | zero => simp [buildHoles]
    | succ n =>
      have hn : n < rest.length := by simpa using h
      simp only [buildHoles, List.getD_cons_succ, List.take_succ_cons, List.sum_cons]
      rw [ih (off + s) n hn, Prod.mk.injEq]
      exact ⟨rfl, by ring⟩

/-- C6: with all pins and the holes allocation succeeding, `CreateGeoPolygon`
builds a polygon whose outer loop has `|verts| / 2` vertices, whose hole count
is `|holeSizes|`, and whose `i`-th hole has `holeSizes[i] / 2` (C truncating
division) vertices at the offset `(holeSizes.take i).sum` inside the pinned
`holeVerts` buffer; together with `DestroyGeoPolygon`, every release of the
caller's arrays uses `JNI_ABORT`, writing nothing back. -/
theorem C6_CreateGeoPolygon_shape_and_readonly :
    ∀ (D : Type) (a : Bool) (verts : List D) (holeSizes : List Int) (holeVerts : List D),
      ∃ p, (CreateGeoPolygon D a true true true true verts holeSizes holeVerts).polygon
          = some p ∧
        (CreateGeoPolygon D a true true true true verts holeSizes holeVerts).err = 0 ∧
        p.geoloopNumVerts = verts.length / 2 ∧
        p.numHoles = holeSizes.length ∧
        p.holes.length = holeSizes.length ∧
        (∀ i, i < holeSizes.length →
          p.holes.getD i (0, 0) =
            (Int.tdiv (holeSizes.getD i 0) 2, (holeSizes.take i).sum)) ∧
        (∀ q ∈ (CreateGeoPolygon D a true true true true verts holeSizes holeVerts).releases
            ++ DestroyGeoPolygon p.numHoles, q.2 = ReleaseMode.abort) := by
  intro D a verts holeSizes holeVerts
  by_cases hn : 0 < holeSizes.length
  · refine ⟨⟨verts.length / 2, holeSizes.length, buildHoles holeSizes 0⟩,
      ?_, ?_, rfl, rfl, buildHoles_length holeSizes 0, ?_, ?_⟩
    · simp [CreateGeoPolygon, hn]
    · simp [CreateGeoPolygon, hn]
    · intro i hi
      have := buildHoles_getD holeSizes 0 i hi
      simpa using this
    · intro q hq
      simp [CreateGeoPolygon, DestroyGeoPolygon, hn] at hq
      rcases hq with rfl | rfl | rfl <;> rfl
  · have hz : holeSizes = [] := List.length_eq_zero.mp (by omega)
    subst hz
    refine ⟨⟨verts.length / 2, 0, []⟩, ?_, ?_, rfl, rfl, rfl, ?_, ?_⟩
    · simp [CreateGeoPolygon]
    · simp [CreateGeoPolygon]
    · intro i hi
      simp at hi
    · intro q hq
      simp [CreateGeoPolygon, DestroyGeoPolygon] at hq
      subst hq
      rfl

/-- Witness for C6: outer loop `[1,2,3,4]` (2 vertices), holes of sizes 4 and
2, giving hole vertex counts 2 and 1 at offsets 0 and 4. -/
theorem C6_witness :
    ∃ p, (CreateGeoPolygon Nat true true true true true [1, 2, 3, 4] [4, 2]
        [0, 0, 0, 0, 0, 0]).polygon = some p ∧
      p.geoloopNumVerts = 2 ∧
      p.numHoles = 2 ∧
      p.holes.getD 0 (0, 0) = (2, 0) ∧
      p.holes.getD 1 (0, 0) = (1, 4) := by
  obtain ⟨p, hp, _, h1, h2, _, hgetD, _⟩ := C6_CreateGeoPolygon_shape_and_readonly Nat true
    [1, 2, 3, 4] [4, 2] [0, 0, 0, 0, 0, 0]
  refine ⟨p, hp, h1.trans (by decide), h2.trans (by decide), ?_, ?_⟩
  · exact (hgetD 0 (by decide)).trans (by decide)
  · exact (hgetD 1 (by decide)).trans (by decide)

/-- C7: when the caller's output array is shorter than the required count,
`getRes0Cells` and `getPentagons` throw before doing anything else: no native
call, no pinning, and the array's contents unchanged.  The required counts are
the native `res0CellCount()` / `pentagonCount()` oracles, which the binding
consults before deciding. -/
theorem C7_capacity_precheck_before_native_call :
    ∀ (p : Bool) (count : Nat) (results nbuf : List Int) (native : Except Nat Unit),
      results.length < count →
      ((Java_com_uber_h3core_NativeMethods_getRes0Cells true p count results native nbuf).thrown
          = some JavaThrowable.outOfMemoryError ∧
        (Java_com_uber_h3core_NativeMethods_getRes0Cells true p count results native nbuf).nativeCalled
          = false ∧
        (Java_com_uber_h3core_NativeMethods_getRes0Cells true p count results native nbuf).arr
          = results ∧
        (Java_com_uber_h3core_NativeMethods_getRes0Cells true p count results native nbuf).pinned
          = false) ∧
      ((Java_com_uber_h3core_NativeMethods_getPentagons true p count results native nbuf).thrown
          = some JavaThrowable.outOfMemoryError ∧
        (Java_com_uber_h3core_NativeMethods_getPentagons true p count results native nbuf).nativeCalled
          = false ∧
        (Java_com_uber_h3core_NativeMethods_getPentagons true p count results native nbuf).arr
          = results ∧
        (Java_com_uber_h3core_NativeMethods_getPentagons true p count results native nbuf).pinned
          = false) := by
  intro p count results nbuf native hlt
  refine ⟨⟨?_, ?_, ?_, ?_⟩, ⟨?_, ?_, ?_, ?_⟩⟩ <;>
    simp [Java_com_uber_h3core_NativeMethods_getRes0Cells,
      Java_com_uber_h3core_NativeMethods_getPentagons, hlt, ThrowOutOfMemoryError]

/-- Witness for C7 with the real counts 122 (`res0CellCount`) and 12
(`pentagonCount`) against an empty output array. -/
theorem C7_witness :
    (Java_com_uber_h3core_NativeMethods_getRes0Cells true true 122 [] (.ok ()) []).nativeCalled
      = false ∧
    (Java_com_uber_h3core_NativeMethods_getRes0Cells true true 122 [] (.ok ()) []).thrown
      = some JavaThrowable.outOfMemoryError ∧
    (Java_com_uber_h3core_NativeMethods_getPentagons true true 12 [] (.ok ()) []).nativeCalled
      = false := by
  have h1 := C7_capacity_precheck_before_native_call true 122 [] [] (.ok ()) (by decide)
  have h2 := C7_capacity_precheck_before_native_call true 12 [] [] (.ok ()) (by decide)
  exact ⟨h1.1.2.1, h1.1.1, h2.2.2.1⟩

/-- C8 (code bug): `cellToVertexes` with a successfully pinned 5-element array
pins the buffer but throws `OutOfMemoryError` on the `sz >= 6` test without
ever calling `ReleaseLongArrayElements` (release count 0); likewise
`gridDiskDistances` never releases the pinned `results` buffer when the
`distances` pin fails, and instead calls `ReleaseIntArrayElements` on the
never-pinned `distances` with a `NULL` pointer. -/
theorem C8_pinned_buffer_never_released :
    (Java_com_uber_h3core_NativeMethods_cellToVertexes true true 5 (.ok ())).pinned = true ∧
    (Java_com_uber_h3core_NativeMethods_cellToVertexes true true 5 (.ok ())).releases = 0 ∧
    (Java_com_uber_h3core_NativeMethods_cellToVertexes true true 5 (.ok ())).thrown
      = some JavaThrowable.outOfMemoryError ∧
    (Java_com_uber_h3core_NativeMethods_gridDiskDistances true true false (.ok ())).resultsReleases
      = 0 ∧
    (Java_com_uber_h3core_NativeMethods_gridDiskDistances true true false (.ok ())).distancesReleasedNull
      = true := by
  exact ⟨rfl, rfl, rfl, rfl, rfl⟩

/-- C9: when the native call reports a nonzero code, `constructCell` returns
its 0-initialized `result` (an erroring native call writes no output in this
embedding), and `cellToChildPos` and `childPosToCell` return 0 explicitly
after throwing. -/
theorem C9_error_returns_zero :
    ∀ (e : Nat), e ≠ 0 →
      (Java_com_uber_h3core_NativeMethods_constructCell true true (.error e)).ret = 0 ∧
      (Java_com_uber_h3core_NativeMethods_cellToChildPos true (.error e)).ret = 0 ∧
      (Java_com_uber_h3core_NativeMethods_childPosToCell true (.error e)).ret = 0 := by
  intro e he
  exact ⟨rfl, rfl, rfl⟩

/-- Witness for C9 at the concrete code 7. -/
theorem C9_witness :
    (Java_com_uber_h3core_NativeMethods_constructCell true true (.error 7)).ret = 0 ∧
    (Java_com_uber_h3core_NativeMethods_cellToChildPos true (.error 7)).ret = 0 ∧
    (Java_com_uber_h3core_NativeMethods_childPosToCell true (.error 7)).ret = 0 :=
  C9_error_returns_zero 7 (by decide)

/-- C10: when the native conversion fails, `cellToLatLng`, `vertexToLatLng`
and `cellToLocalIj` throw the translated exception and return before pinning
the caller's output array, whose contents are therefore unchanged. -/
theorem C10_error_before_pinning_output_unchanged :
    ∀ (D : Type) (p : Bool) (e : Nat) (verts latLng : List D) (coords : List Int),
      ((Java_com_uber_h3core_NativeMethods_cellToLatLng D true p (.error e) verts).thrown
          = some (JavaThrowable.h3Exception e) ∧
        (Java_com_uber_h3core_NativeMethods_cellToLatLng D true p (.error e) verts).pinned
          = false ∧
        (Java_com_uber_h3core_NativeMethods_cellToLatLng D true p (.error e) verts).arr
          = verts) ∧
      ((Java_com_uber_h3core_NativeMethods_vertexToLatLng D true p (.error e) latLng).thrown
          = some (JavaThrowable.h3Exception e) ∧
        (Java_com_uber_h3core_NativeMethods_vertexToLatLng D true p (.error e) latLng).pinned
          = false ∧
        (Java_com_uber_h3core_NativeMethods_vertexToLatLng D true p (.error e) latLng).arr
          = latLng) ∧
      ((Java_com_uber_h3core_NativeMethods_cellToLocalIj true p (.error e) coords).thrown
          = some (JavaThrowable.h3Exception e) ∧
        (Java_com_uber_h3core_NativeMethods_cellToLocalIj true p (.error e) coords).pinned
          = false ∧
        (Java_com_uber_h3core_NativeMethods_cellToLocalIj true p (.error e) coords).arr
          = coords) := by
  intro D p e verts latLng coords
  exact ⟨⟨rfl, rfl, rfl⟩, ⟨rfl, rfl, rfl⟩, ⟨rfl, rfl, rfl⟩⟩

/-- Witness for C10 at the concrete code 5 and concrete arrays. -/
theorem C10_witness :
    (Java_com_uber_h3core_NativeMethods_cellToLatLng Nat true true (.error 5) [9]).arr = [9] ∧
    (Java_com_uber_h3core_NativeMethods_vertexToLatLng Nat true true (.error 5) [8]).pinned
      = false ∧
    (Java_com_uber_h3core_NativeMethods_cellToLocalIj true true (.error 5) [7]).thrown
      = some (JavaThrowable.h3Exception 5) := by
  have h := C10_error_before_pinning_output_unchanged Nat true 5 [9] [8] [7]
  exact ⟨h.1.2.2, h.2.1.2.1, h.2.2.1⟩

end H3Java
